import Mathlib

/-!
Verification development for the jp-corpreg-loader repository.

This file gives a shallow embedding, in Lean 4, of the parts of the
repository that the specification talks about:

* `convert_japanese_date` — `CorporateRegistryClient._convert_japanese_date`
  (src/jpcorpreg/client.py), the era-based date converter;
* `fetch_sabun_file_id` — `CorporateRegistryClient._fetch_sabun_file_id`,
  resolution of the differential (sabun) date catalog;
* `select_csv_member` — the archive-member selection shared by
  `CorporateDataWriter.uncompress_and_parse` (src/jpcorpreg/writer.py) and
  `ZipLoader._uncompress_file` (src/jpcorpreg/load.py);
* `parse_to_df`, `parse_to_parquet_dataset`, `read_csv` — the schema-pinned
  materialization entry points of writer.py and load.py;
* `download_and_process`, `download_diff`, `download_all`,
  `download_prefecture` and the legacy `legacy_zip_load` / `legacy_to_df` —
  the pipeline orchestration, modelled together with an explicit file-system
  state that records the lifecycle of the two temporary files the pipeline
  creates (the downloaded archive and the extracted data file).

Machine-level details that the claims do not depend on (HTTP wire format,
actual bytes of archives) are abstracted into explicit outcome parameters;
every branch of the Python control flow, including each `try`/`finally`,
is reproduced explicitly.
-/

/-! ### Decimal formatting, the model of Python `f"{n:04d}"` / `f"{n:02d}"`

Python `"%0wd" % n` prints the decimal digits of `n` left-padded with zeros
to width `w`; the padding never truncates, so a value with more than `w`
digits is printed in full. -/

/-- Decimal digits of `n`, most significant first.  The first argument is
structural fuel; `n` itself is always a sufficient amount of fuel, since a
positive number has at most as many decimal digits as its own value. -/
def decAux : Nat → Nat → List Char
  | 0, _ => []
  | k + 1, n => if n = 0 then [] else decAux k (n / 10) ++ [Nat.digitChar (n % 10)]

/-- The decimal representation of a natural number, as produced by Python
`str` on a non-negative `int`. -/
def decRepr (n : Nat) : String :=
  ⟨if n = 0 then ['0'] else decAux n n⟩

/-- Left-pad a string with the zero character to width `w`; never truncates.
Models the `0w` part of a Python format specifier. -/
def padZero (w : Nat) (s : String) : String :=
  ⟨List.replicate (w - s.data.length) '0' ++ s.data⟩

/-- Python `f"{n:0wd}"` for a non-negative integer `n`. -/
def pyFormat (w : Nat) (n : Nat) : String :=
  padZero w (decRepr n)

/-! ### The era-based date converter

`CorporateRegistryClient._convert_japanese_date` (client.py lines 179–191):

```python
match_reiwa = re.search(r"令和(\d+|元)年(\d+)月(\d+)日", raw_date)
if match_reiwa:
    year_val = 1 if match_reiwa.group(1) == "元" else int(match_reiwa.group(1))
    return f"{year_val + 2018:04d}{int(match_reiwa.group(2)):02d}{int(match_reiwa.group(3)):02d}"
match_heisei = re.search(r"平成(\d+|元)年(\d+)月(\d+)日", raw_date)
if match_heisei:
    year_val = 1 if match_heisei.group(1) == "元" else int(match_heisei.group(1))
    return f"{year_val + 1988:04d}{int(match_heisei.group(2)):02d}{int(match_heisei.group(3)):02d}"
return None
```

`\d` is modelled as an ASCII decimal digit (the portal's pages use ASCII
digits).  `re.search` finds the leftmost position at which the pattern
matches; because each `\d+` group is immediately followed by a required
non-digit literal, the greedy maximal digit run is the only viable one, and
the `元` alternative can only fire when no digit follows the era marker. -/

/-- Split a maximal leading run of ASCII decimal digits off a character
list, returning the run and the remainder. -/
def takeDigits : List Char → List Char × List Char
  | [] => ([], [])
  | c :: cs =>
    if c.isDigit then
      let p := takeDigits cs
      (c :: p.1, p.2)
    else ([], c :: cs)

/-- Numeric value of a list of ASCII decimal digits (the model of Python
`int` on the matched group). -/
def digitsToNat (ds : List Char) : Nat :=
  ds.foldl (fun n c => 10 * n + (c.toNat - 48)) 0

/-- Try to match `(\d+|元)年(\d+)月(\d+)日` at the head of `cs` (the text
right after a two-character era marker), returning the numeric year, month
and day on success.  The year is `1` when the first-year glyph `元` stands
in place of digits. -/
def matchEraBody (cs : List Char) : Option (Nat × Nat × Nat) :=
  let py := takeDigits cs
  let year? : Option (Nat × List Char) :=
    if py.1.isEmpty then
      match py.2 with
      | '元' :: '年' :: r => some (1, r)
      | _ => none
    else
      match py.2 with
      | '年' :: r => some (digitsToNat py.1, r)
      | _ => none
  match year? with
  | none => none
  | some (y, r1) =>
    let pm := takeDigits r1
    if pm.1.isEmpty then none
    else
      match pm.2 with
      | '月' :: r3 =>
        let pd := takeDigits r3
        if pd.1.isEmpty then none
        else
          match pd.2 with
          | '日' :: _ => some (y, digitsToNat pm.1, digitsToNat pd.1)
          | _ => none
      | _ => none

/-- Model of `re.search` for the pattern `m1 m2 (\d+|元)年(\d+)月(\d+)日`: scan for
the leftmost position at which the two-character era marker is followed by
a full match of the body. -/
def searchEra (m1 m2 : Char) : List Char → Option (Nat × Nat × Nat)
  | [] => none
  | c :: cs =>
    if c = m1 then
      match cs with
      | c2 :: cs2 =>
        if c2 = m2 then
          match matchEraBody cs2 with
          | some r => some r
          | none => searchEra m1 m2 cs
        else searchEra m1 m2 cs
      | [] => none
    else searchEra m1 m2 cs

/-- Model of `CorporateRegistryClient._convert_japanese_date`: convert a localized
era-based date string such as `令和8年2月20日` to a canonical `YYYYMMDD`
key; the Reiwa (era A, offset 2018) pattern is tried first, then Heisei
(era B, offset 1988); a string matching neither yields `none`. -/
def convert_japanese_date (raw : String) : Option String :=
  match searchEra '令' '和' raw.data with
  | some (y, m, d) => some (pyFormat 4 (y + 2018) ++ pyFormat 2 m ++ pyFormat 2 d)
  | none =>
    match searchEra '平' '成' raw.data with
    | some (y, m, d) => some (pyFormat 4 (y + 1988) ++ pyFormat 2 m ++ pyFormat 2 d)
    | none => none

example : convert_japanese_date ("令和8年2月20日") = some ("20260220") := by decide
example : convert_japanese_date ("令和元年5月1日") = some ("20190501") := by decide
example : convert_japanese_date ("平成31年4月30日") = some ("20190430") := by decide
example : convert_japanese_date ("2026-02-20") = none := by decide
example : convert_japanese_date ("令和8年123月20日") = some ("202612320") := by decide

/-- Decidable equality on `Except`, used to evaluate pipeline results on
concrete inputs. -/
instance {ε α : Type} [DecidableEq ε] [DecidableEq α] : DecidableEq (Except ε α) := fun x y =>
  match x, y with
  | .ok a, .ok b =>
    if h : a = b then .isTrue (by rw [h]) else .isFalse (by intro hh; cases hh; exact h rfl)
  | .ok _, .error _ => .isFalse (by intro h; cases h)
  | .error _, .ok _ => .isFalse (by intro h; cases h)
  | .error e, .error f =>
    if h : e = f then .isTrue (by rw [h]) else .isFalse (by intro hh; cases hh; exact h rfl)

/-! ### Python exceptions and fatality

The repository distinguishes, per the error-handling design, fatal
process-level aborts (`SystemExit`) from recoverable exceptions raised to
the caller (`ValueError`, `zipfile.BadZipFile`, parser errors,
`TypeError`). -/

/-- The exception kinds raised by the pipeline code. -/
inductive PyExc
  /-- Python `SystemExit`: terminates the process when it reaches top level. -/
  | systemExit (msg : String)
  /-- Python `ValueError`: recoverable, raised back to the caller. -/
  | valueError (msg : String)
  /-- Python `zipfile.BadZipFile`: recoverable, raised back to the caller. -/
  | badZipFile (msg : String)
  /-- Python `TypeError`: recoverable, raised back to the caller. -/
  | typeError (msg : String)
  /-- A parser/I-O error from pandas or pyarrow: recoverable. -/
  | parserError (msg : String)
  /-- An OS-level I/O error escaping a read/write loop. -/
  | ioError
deriving DecidableEq, Repr

/-- An exception aborts the whole process exactly when it is `SystemExit`. -/
def PyExc.isFatal : PyExc → Bool
  | .systemExit _ => true
  | _ => false

/-! ### Temporary-file state

One pipeline invocation creates at most two temporary files: the downloaded
archive (`jpnzip*.zip`) and the extracted data file (`*.csv`).  For each we
record whether it was ever created, whether it is still on disk, and how
many times it was removed. -/

/-- Lifecycle record of one temporary file. -/
structure TempFile where
  created : Bool
  onDisk : Bool
  removals : Nat
deriving DecidableEq, Repr

/-- A freshly created temporary file (`tempfile.NamedTemporaryFile` with
`delete=False`). -/
def TempFile.make : TempFile :=
  { created := true, onDisk := true, removals := 0 }

/-- Model of `if os.path.exists(path): os.remove(path)` — the guarded removal used
in every `finally` block of the modern client. -/
def TempFile.removeIfExists (t : TempFile) : TempFile :=
  if t.onDisk then { t with onDisk := false, removals := t.removals + 1 } else t

/-- The file-system state tracked across one pipeline invocation. -/
structure FS where
  zips : TempFile
  csv : TempFile
deriving DecidableEq, Repr

/-- State before the invocation: neither temporary file exists. -/
def emptyFS : FS :=
  { zips := { created := false, onDisk := false, removals := 0 },
    csv := { created := false, onDisk := false, removals := 0 } }

/-- A temporary file was cleaned up correctly: if it was ever created, it
is no longer on disk and was removed exactly once. -/
def cleaned (t : TempFile) : Prop :=
  t.created = true → t.onDisk = false ∧ t.removals = 1

/-! ### Page fetch and token extraction -/

/-- The hidden form-field name carrying the anti-forgery token. -/
def tokenKey : String :=
  "jp.go.nta.houjin_bangou.framework.web.common.CNSFWTokenProcessor.request.token"

/-- Endpoint of the full-snapshot (zenken) catalog. -/
def zenkenUrl : String := "https://www.houjin-bangou.nta.go.jp/download/zenken/"

/-- Endpoint of the differential (sabun) catalog. -/
def sabunUrl : String := "https://www.houjin-bangou.nta.go.jp/download/sabun/"

/-- Outcome of the GET of a catalog page: either the transport fails, or a
page is fetched whose hidden token field may or may not be present and
whose markup parses to catalog content of type `α`. -/
inductive FetchResult (α : Type)
  /-- A `requests.exceptions.RequestException` out of `session.get`. -/
  | transportFail
  /-- A fetched page: `token` is the value of the hidden token input if
  that input exists, `content` the parsed catalog data. -/
  | page (token : Option String) (content : α)
deriving DecidableEq, Repr

/-- Model of `CorporateRegistryClient._get_page_and_token` (client.py lines
146–160): a transport failure raises `SystemExit`; a page without the
hidden token input raises `ValueError`; otherwise the page content and the
token are returned. -/
def get_page_and_token {α : Type} (url : String) : FetchResult α → Except PyExc (α × String)
  | .transportFail => .error (.systemExit ("Request to " ++ url ++ " failed"))
  | .page none _ =>
      .error (.valueError ("Security token " ++ tokenKey ++ " not found on " ++ url))
  | .page (some v) content => .ok (content, v)

/-- Model of `ZipLoader._load_token` (load.py lines 139–152): the legacy loader
subscripts the result of `soup.find` directly, so a page without the token
input raises `TypeError` (`NoneType` is not subscriptable). -/
def load_token : Option String → Except PyExc String
  | none => .error (.typeError ("NoneType object is not subscriptable"))
  | some v => .ok v

/-! ### Archive download

`_download_zip` (client.py lines 220–232, identical in load.py lines
154–178) POSTs the token and file identifier and streams the body to a
fresh temporary file.  Three outcomes are possible: the request fails
before the temporary file is created (`raise_for_status`), the stream
fails after the file was created, or the download completes. -/

/-- Outcome of the archive POST. -/
inductive DownloadOutcome
  /-- The POST itself or `raise_for_status` fails: no file created. -/
  | failBeforeWrite
  /-- Case where `iter_content` raises mid-stream: the temporary file was already
  created and is left on disk. -/
  | failMidStream
  /-- The download completes. -/
  | ok
deriving DecidableEq, Repr

/-- Model of `_download_zip`: on either failure a `SystemExit` is raised; the
temporary archive exists afterwards unless the failure happened before the
file was created. -/
def download_zip (o : DownloadOutcome) (fs : FS) : Except PyExc String × FS :=
  match o with
  | .failBeforeWrite => (.error (.systemExit ("Request to download ZIP failed")), fs)
  | .failMidStream =>
      (.error (.systemExit ("Request to download ZIP failed")), { fs with zips := TempFile.make })
  | .ok => (.ok ("zip path"), { fs with zips := TempFile.make })

/-! ### Archive member selection -/

/-- Model of `re.search(r"\.csv$", name, re.IGNORECASE)`: the name matches when its
lowercased form ends in `.csv`, or in `.csv` followed by one trailing
newline (Python `$` also matches just before a final newline). -/
def csvMember (name : String) : Bool :=
  let l := name.data.map Char.toLower
  ['.', 'c', 's', 'v'].isSuffixOf l || ['.', 'c', 's', 'v', '\n'].isSuffixOf l

/-- Selection of the data member from the archive listing, common to
`uncompress_and_parse` (writer.py lines 33–39) and `_uncompress_file`
(load.py lines 192–198): filter the member names case-insensitively by the
`.csv` suffix; no candidate raises `BadZipFile`, otherwise the first
candidate in listing order is taken. -/
def select_csv_member (names : List String) : Except PyExc String :=
  match names.filter csvMember with
  | [] => .error (.badZipFile ("No CSV found in ZIP."))
  | m :: _ => .ok m

example : select_csv_member ["readme.txt", "Data.CSV", "other.csv"] = .ok ("Data.CSV") := by decide
example : select_csv_member ["readme.txt"] = .error (.badZipFile ("No CSV found in ZIP.")) := by decide

/-! ### The differential (sabun) date catalog

`CorporateRegistryClient._fetch_sabun_file_id` (client.py lines 193–218)
walks the rows of the catalog table in document order.  A row contributes a
candidate only if it has a header cell (`th`), a data cell (`td`), an
anchor inside the data cell, an `onclick` attribute on that anchor, and a
5-digit match inside the attribute; any row failing one of these guards is
skipped silently.  The chain of structural guards above the row loop
(`id="csv-unicode"` header, `tbl03` div, `table`, `tbody`) is collapsed
into an `Option`: `none` means some element of the chain is missing and no
row is ever visited. -/

/-- Shape of the data cell of a catalog row, as seen by the guards
`if th and td`, `td.find("a")` and `a_tag.has_attr("onclick")`. -/
inductive TdShape
  /-- The row has no `td` element. -/
  | noTd
  /-- A `td` exists but holds no anchor. -/
  | tdNoAnchor
  /-- An anchor exists but has no `onclick` attribute. -/
  | anchorNoOnclick
  /-- An anchor with an `onclick` attribute holding the given text. -/
  | anchorOnclick (onclick : String)
deriving DecidableEq, Repr

/-- One `tr` of the sabun catalog table: the text of its first `th` (when
a `th` exists) and the shape of its first `td`. -/
structure SabunRow where
  th : Option String
  td : TdShape
deriving DecidableEq, Repr

/-- Python `str.strip`: drop whitespace from both ends. -/
def pyStrip (s : String) : String :=
  ⟨((s.data.dropWhile Char.isWhitespace).reverse.dropWhile Char.isWhitespace).reverse⟩

/-- Model of `re.search(r"\d{5}", s)`: the leftmost run of five consecutive ASCII
decimal digits in `s`, if any. -/
def firstFiveDigits : List Char → Option String
  | [] => none
  | a :: rest =>
    match rest with
    | b :: c :: d :: e :: _ =>
      if a.isDigit && b.isDigit && c.isDigit && d.isDigit && e.isDigit then
        some ⟨[a, b, c, d, e]⟩
      else firstFiveDigits rest
    | _ => none

/-- The candidate a row contributes: its converted date (the stripped `th`
text through the date converter) paired with its 5-digit file identifier.
`none` when any of the row guards fails. -/
def rowExtract (r : SabunRow) : Option (Option String × String) :=
  match r.th, r.td with
  | some thText, .anchorOnclick oc =>
    match firstFiveDigits oc.data with
    | some fid => some (convert_japanese_date (pyStrip thText), fid)
    | none => none
  | _, _ => none

/-- A row whose converted date equals the requested date `d` (and whose
identifier is extractable, since the code only compares dates of rows that
passed all guards). -/
def rowMatches (d : String) (r : SabunRow) : Bool :=
  match rowExtract r with
  | some (some pd, _) => pd == d
  | _ => false

/-- The `for tr in tbody.find_all("tr")` loop: the first extractable file
identifier whose row satisfies the date condition (`target_date is None or
parsed_date == target_date`). -/
def sabunLoop (target : Option String) : List SabunRow → Option String
  | [] => none
  | r :: rest =>
    match rowExtract r with
    | some (pd, fid) =>
      if target.isNone || pd == target then some fid
      else sabunLoop target rest
    | none => sabunLoop target rest

/-- The `ValueError` raised when no row is selected, depending on whether a
date was requested. -/
def sabunFail (target : Option String) : PyExc :=
  match target with
  | none => .valueError ("Failed to retrieve the latest sabun file ID.")
  | some d => .valueError ("No sabun data found for the date: " ++ d)

/-- Model of `CorporateRegistryClient._fetch_sabun_file_id`: `rows = none` models a
page on which the `csv-unicode` header, the `tbl03` div, the `table` or the
`tbody` is missing, in which case the loop body is never reached. -/
def fetch_sabun_file_id (rows : Option (List SabunRow)) (target : Option String) :
    Except PyExc String :=
  match rows with
  | some rs =>
    match sabunLoop target rs with
    | some fid => .ok fid
    | none => .error (sabunFail target)
  | none => .error (sabunFail target)

example :
    fetch_sabun_file_id
      (some [{ th := some ("令和8年2月20日"), td := .anchorOnclick ("dl(12345)") }]) none =
    .ok ("12345") := by decide
example :
    fetch_sabun_file_id
      (some [{ th := some ("令和8年2月20日"), td := .noTd },
             { th := some ("令和8年2月13日"), td := .anchorOnclick ("dl(11111)") }]) none =
    .ok ("11111") := by decide
example :
    fetch_sabun_file_id (some []) (some ("20260220")) =
    .error (.valueError ("No sabun data found for the date: 20260220")) := by decide

/-! ### The writer: extraction and materialization, with temp-file tracking

`CorporateDataWriter.uncompress_and_parse` (writer.py lines 22–67).  The
outcomes of the external steps are explicit: whether the archive opens
(`zipNames = none` models `zipfile.BadZipFile` on open), whether streaming
the selected member out of the archive succeeds, and whether parsing the
extracted file succeeds. -/

/-- Environment of one `uncompress_and_parse` call. -/
structure WriterEnv where
  /-- Member names of the archive; `none` when the archive is corrupt and
  `zipfile.ZipFile` itself raises. -/
  zipNames : Option (List String)
  /-- Whether streaming the selected member to the temp file succeeds. -/
  extractOk : Bool
  /-- Whether parsing the extracted file succeeds. -/
  parseOk : Bool
deriving DecidableEq, Repr

/-- Model of `uncompress_and_parse`: open the archive, select the data member,
stream it to a fresh temporary file, then parse under the requested format
inside a `try` whose `finally` removes the extracted file.  Note the two
windows outside that `finally`: the member-selection failure happens before
the temporary file exists, while a streaming failure happens after it was
created but before the guarded block is entered. -/
def uncompress_and_parse (env : WriterEnv) (format_type : String)
    (_output_dir : Option String) (_partition_cols : Option (List String)) (fs : FS) :
    Except PyExc Unit × FS :=
  match env.zipNames with
  | none => (.error (.badZipFile ("File is not a zip file")), fs)
  | some names =>
    match select_csv_member names with
    | .error e => (.error e, fs)
    | .ok _ =>
      let fs1 : FS := { fs with csv := TempFile.make }
      if env.extractOk then
        let r : Except PyExc Unit :=
          if format_type = "df" then
            if env.parseOk then .ok () else .error (.parserError ("pyarrow CSV parse failed"))
          else if format_type = "parquet" then
            if env.parseOk then .ok () else .error (.parserError ("pyarrow CSV parse failed"))
          else .error (.valueError ("Invalid format. Use df or parquet."))
        (r, { fs1 with csv := fs1.csv.removeIfExists })
      else (.error .ioError, fs1)

/-- Python `str.capitalize`: first character upper-cased, all following
characters lower-cased. -/
def pyCapitalize (s : String) : String :=
  match s.data with
  | [] => ""
  | c :: cs => ⟨c.toUpper :: cs.map Char.toLower⟩

example : pyCapitalize ("tokyo") = "Tokyo" := by decide
example : pyCapitalize ("ALL") = "All" := by decide

/-! ### The modern client pipeline -/

/-- Environment of one zenken (full snapshot) pipeline invocation:  the
catalog page fetch, whose content is the region catalog resolved by
`_fetch_zenken_file_ids` (a list of canonical-region-name/file-id pairs in
document order), the archive download outcome, and the writer outcomes. -/
structure ClientEnv where
  fetch : FetchResult (List (String × String))
  download : DownloadOutcome
  writer : WriterEnv
deriving DecidableEq, Repr

/-- Model of `CorporateRegistryClient._download_and_process` (client.py lines
110–144): fetch page and token, capitalization-normalize the requested
region and look it up in the catalog (`ValueError` when absent), download
the archive, then run the writer inside a `try` whose `finally` removes
the downloaded archive if it exists. -/
def download_and_process (env : ClientEnv) (prefecture format_type : String)
    (output_dir : Option String) (partition_cols : Option (List String)) (fs : FS) :
    Except PyExc Unit × FS :=
  match get_page_and_token zenkenUrl env.fetch with
  | .error e => (.error e, fs)
  | .ok (pref_list, _token) =>
    match pref_list.lookup (pyCapitalize prefecture) with
    | none => (.error (.valueError ("Unexpected Prefecture or Region: " ++ prefecture)), fs)
    | some _file_id =>
      match download_zip env.download fs with
      | (.error e, fs1) => (.error e, fs1)
      | (.ok _, fs1) =>
        let out := uncompress_and_parse env.writer format_type output_dir partition_cols fs1
        (out.1, { out.2 with zips := out.2.zips.removeIfExists })

/-- Model of `CorporateRegistryClient.download_all` (client.py lines 41–55):
delegates to the internal pipeline with prefecture `"All"`. -/
def download_all (env : ClientEnv) (format_type : String) (output_dir : Option String)
    (partition_cols : Option (List String)) (fs : FS) : Except PyExc Unit × FS :=
  download_and_process env ("All") format_type output_dir partition_cols fs

/-- Model of `CorporateRegistryClient.download_prefecture` (client.py lines 57–72):
delegates to the internal pipeline with the given prefecture. -/
def download_prefecture (env : ClientEnv) (prefecture format_type : String)
    (output_dir : Option String) (partition_cols : Option (List String)) (fs : FS) :
    Except PyExc Unit × FS :=
  download_and_process env prefecture format_type output_dir partition_cols fs

/-- Environment of one differential (sabun) pipeline invocation: the page
fetch whose content is the parsed catalog table, the download outcome and
the writer outcomes. -/
structure DiffEnv where
  fetch : FetchResult (Option (List SabunRow))
  download : DownloadOutcome
  writer : WriterEnv
deriving DecidableEq, Repr

/-- Model of `CorporateRegistryClient.download_diff` (client.py lines 74–106):
fetch page and token, resolve the file identifier for the requested date
(or the latest), download the archive, then run the writer inside a `try`
whose `finally` removes the downloaded archive if it exists. -/
def download_diff (env : DiffEnv) (date : Option String) (format_type : String)
    (output_dir : Option String) (partition_cols : Option (List String)) (fs : FS) :
    Except PyExc Unit × FS :=
  match get_page_and_token sabunUrl env.fetch with
  | .error e => (.error e, fs)
  | .ok (rows, _token) =>
    match fetch_sabun_file_id rows date with
    | .error e => (.error e, fs)
    | .ok _file_id =>
      match download_zip env.download fs with
      | (.error e, fs1) => (.error e, fs1)
      | (.ok _, fs1) =>
        let out := uncompress_and_parse env.writer format_type output_dir partition_cols fs1
        (out.1, { out.2 with zips := out.2.zips.removeIfExists })

/-! ### The legacy loader pipeline (load.py)

`ZipLoader` performs the same steps but without any cleanup: `_zip_load`
(lines 122–137) has no `try`/`finally`, `_uncompress_file` (lines 180–210)
returns the extracted temp path to the caller, and neither `to_df` nor
`to_parquet` ever removes the downloaded archive or the extracted file. -/

/-- Environment of one legacy `ZipLoader` invocation. -/
structure LegacyEnv where
  prefList : List (String × String)
  download : DownloadOutcome
  zipNames : Option (List String)
  extractOk : Bool
  parseOk : Bool
deriving DecidableEq, Repr

/-- Model of `ZipLoader._uncompress_file`: select the data member and stream it to
a fresh temporary file; the extracted path is returned and never removed,
and the source archive is not removed either. -/
def legacy_uncompress_file (env : LegacyEnv) (fs : FS) : Except PyExc String × FS :=
  match env.zipNames with
  | none => (.error (.badZipFile ("File is not a zip file")), fs)
  | some names =>
    match select_csv_member names with
    | .error e => (.error e, fs)
    | .ok _ =>
      let fs1 : FS := { fs with csv := TempFile.make }
      if env.extractOk then (.ok ("csv path"), fs1)
      else (.error .ioError, fs1)

/-- Model of `ZipLoader._zip_load` (load.py lines 122–137): look the capitalized
region up in the catalog — a `KeyError` is converted to a fatal
`SystemExit` — then download and extract, with no cleanup on any path. -/
def legacy_zip_load (env : LegacyEnv) (prefecture : String) (fs : FS) :
    Except PyExc String × FS :=
  match env.prefList.lookup (pyCapitalize prefecture) with
  | none => (.error (.systemExit ("Unexpected Key Value: " ++ prefecture)), fs)
  | some _file_id =>
    match download_zip env.download fs with
    | (.error e, fs1) => (.error e, fs1)
    | (.ok _, fs1) => legacy_uncompress_file env fs1

/-- Model of `ZipLoader.to_df`: extract, then parse the extracted file with pandas;
no temporary file is removed on any path. -/
def legacy_to_df (env : LegacyEnv) (prefecture : String) (fs : FS) :
    Except PyExc Unit × FS :=
  match legacy_zip_load env prefecture fs with
  | (.error e, fs1) => (.error e, fs1)
  | (.ok _, fs1) =>
    ((if env.parseOk then .ok () else .error (.parserError ("pandas CSV parse failed"))), fs1)

example :
    (legacy_to_df { prefList := [("All", "12345")], download := .ok,
                    zipNames := some ["data.csv"], extractOk := true, parseOk := true }
      ("All") emptyFS).2.zips.onDisk = true := by decide
example :
    (download_and_process { fetch := .page (some ("tok")) [("All", "12345")], download := .ok,
                            writer := { zipNames := some ["data.csv"], extractOk := true,
                                        parseOk := true } }
      ("All") ("df") none none emptyFS).2.zips.removals = 1 := by decide

/-! ### Schema-pinned materialization

`CorporateDataWriter.__init__` (writer.py lines 17–20) loads the ordered
header list from external configuration (`load_config("header")`, outside
the pipeline core per the specification) and pins every column to the
arrow string type.  The data file is modelled as its list of records, each
a list of cell strings; the header list is an explicit parameter standing
for the externally configured value.  A file is accepted exactly when each
record has as many cells as there are configured headers. -/

/-- Column type domain of the output: every pinned column is text. -/
inductive ColType
  | text
  | other
deriving DecidableEq, Repr

/-- An output table (pandas DataFrame, arrow table, or the logical content
of a written parquet dataset): named, typed columns plus the record rows. -/
structure ATable where
  fields : List (String × ColType)
  rows : List (List String)
deriving DecidableEq, Repr

/-- Model of `pa.schema([pa.field(col, pa.string()) for col in self.headers])`
(writer.py line 20): one text-typed field per configured header, in
configuration order. -/
def pa_schema (headers : List String) : List (String × ColType) :=
  headers.map (fun h => (h, ColType.text))

/-- Model of `CorporateDataWriter._parse_to_df` (writer.py lines 69–82):
`pyarrow.csv.read_csv` with `column_names = headers` and every column type
forced to string reads the whole file in one pass; a record whose cell
count differs from the header count is a parse error. -/
def parse_to_df (headers : List String) (file : List (List String)) : Except PyExc ATable :=
  if file.all (fun r => r.length = headers.length) then
    .ok { fields := pa_schema headers, rows := file }
  else .error (.parserError ("pyarrow CSV parse failed"))

/-- Model of `CorporateDataWriter._parse_to_parquet_dataset` (writer.py lines
84–116): `pyarrow.csv.open_csv` streams the same file in chunks (the chunk
boundaries are an input here), each chunk carrying the same pinned string
schema, and `ds.write_dataset` appends every chunk to the dataset.  The
result is the logical content of the written dataset: the pinned schema
and the concatenation of the chunk rows.  (Partitioning only relocates
partition-column values into directory names; the dataset row-file bounds
only govern physical file splitting.  Neither changes the logical schema
or the row multiset, so they do not appear in the model.) -/
def parse_to_parquet_dataset (headers : List String) (chunks : List (List (List String))) :
    Except PyExc ATable :=
  if chunks.flatten.all (fun r => r.length = headers.length) then
    .ok { fields := pa_schema headers, rows := chunks.flatten }
  else .error (.parserError ("pyarrow CSV parse failed"))

/-- Model of `read_csv` (load.py lines 87–97): `pd.read_csv` with `header=None`,
`names = headers` and `dtype="object"` — every column is the pandas object
(text) dtype and the columns are exactly the configured headers. -/
def read_csv (headers : List String) (file : List (List String)) : Except PyExc ATable :=
  if file.all (fun r => r.length = headers.length) then
    .ok { fields := pa_schema headers, rows := file }
  else .error (.parserError ("pandas CSV parse failed"))

example :
    parse_to_df ["corporate_number", "name"] [["1234567890123", "a"], ["9876543210987", "b"]] =
    .ok { fields := [("corporate_number", .text), ("name", .text)],
          rows := [["1234567890123", "a"], ["9876543210987", "b"]] } := by decide

/-! ## Supporting lemmas -/

/-- The decimal digit list of a number below `10 ^ w` has at most `w`
digits, for any amount of fuel. -/
theorem decAux_length_le (k : Nat) : ∀ n w, n < 10 ^ w → (decAux k n).length ≤ w := by
  induction k with
  | zero => intro n w _; simp [decAux]
  | succ k ih =>
    intro n w h
    by_cases hn : n = 0
    · simp [decAux, hn]
    · cases w with
      | zero => simp at h; omega
      | succ w =>
        have hd : n / 10 < 10 ^ w := by
          have h10 : n < 10 ^ w * 10 := by
            have : (10 : Nat) ^ (w + 1) = 10 ^ w * 10 := pow_succ 10 w
            omega
          exact (Nat.div_lt_iff_lt_mul (by norm_num)).mpr h10
        have := ih (n / 10) w hd
        simp [decAux, hn]
        omega

/-- The decimal representation of a number below `10 ^ w` (with `w ≥ 1`)
has at most `w` characters. -/
theorem decRepr_length_le (n w : Nat) (h : n < 10 ^ w) (hw : 1 ≤ w) :
    (decRepr n).length ≤ w := by
  unfold decRepr
  by_cases hn : n = 0
  · simpa [hn, String.length] using hw
  · simpa [hn, String.length] using decAux_length_le n n w h

/-- Zero-padding to width `w` yields exactly `w` characters whenever the
unpadded representation fits within `w` characters. -/
theorem pyFormat_length (w n : Nat) (h : n < 10 ^ w) (hw : 1 ≤ w) :
    (pyFormat w n).length = w := by
  have hle := decRepr_length_le n w h hw
  simp only [String.length] at hle
  unfold pyFormat padZero
  simp only [String.length, List.length_append, List.length_replicate]
  omega

/-! ## Claim C1 -/

/-- C1 (amended): for every input string matching the Era-A (Reiwa)
pattern, `convert_japanese_date` returns the concatenation of
(era-relative year + 2018) zero-padded to at least 4 digits, the month
zero-padded to at least 2 digits, and the day zero-padded to at least 2
digits — a string of exactly 8 characters whenever the padded components
fit those widths; for every string matching the Era-B (Heisei) pattern
and not the Era-A pattern, the same with offset +1988; and for every
string matching neither pattern the converter returns `none` and, being a
total function, never throws. -/
theorem C1_era_date_converter (s : String) :
    (∀ y m d, searchEra '令' '和' s.data = some (y, m, d) →
      convert_japanese_date s = some (pyFormat 4 (y + 2018) ++ pyFormat 2 m ++ pyFormat 2 d) ∧
      (y + 2018 < 10000 → m < 100 → d < 100 →
        (pyFormat 4 (y + 2018) ++ pyFormat 2 m ++ pyFormat 2 d).length = 8)) ∧
    (searchEra '令' '和' s.data = none →
      ∀ y m d, searchEra '平' '成' s.data = some (y, m, d) →
      convert_japanese_date s = some (pyFormat 4 (y + 1988) ++ pyFormat 2 m ++ pyFormat 2 d) ∧
      (y + 1988 < 10000 → m < 100 → d < 100 →
        (pyFormat 4 (y + 1988) ++ pyFormat 2 m ++ pyFormat 2 d).length = 8)) ∧
    (searchEra '令' '和' s.data = none → searchEra '平' '成' s.data = none →
      convert_japanese_date s = none) := by
  have e4 : (10 : Nat) ^ 4 = 10000 := by norm_num
  have e2 : (10 : Nat) ^ 2 = 100 := by norm_num
  refine ⟨?_, ?_, ?_⟩
  · intro y m d h
    refine ⟨by simp [convert_japanese_date, h], ?_⟩
    intro hy hm hd
    have h4 : (pyFormat 4 (y + 2018)).length = 4 := pyFormat_length 4 _ (e4 ▸ hy) (by norm_num)
    have hm2 : (pyFormat 2 m).length = 2 := pyFormat_length 2 m (e2 ▸ hm) (by norm_num)
    have hd2 : (pyFormat 2 d).length = 2 := pyFormat_length 2 d (e2 ▸ hd) (by norm_num)
    simp [String.length_append, h4, hm2, hd2]
  · intro hA y m d h
    refine ⟨by simp [convert_japanese_date, hA, h], ?_⟩
    intro hy hm hd
    have h4 : (pyFormat 4 (y + 1988)).length = 4 := pyFormat_length 4 _ (e4 ▸ hy) (by norm_num)
    have hm2 : (pyFormat 2 m).length = 2 := pyFormat_length 2 m (e2 ▸ hm) (by norm_num)
    have hd2 : (pyFormat 2 d).length = 2 := pyFormat_length 2 d (e2 ▸ hd) (by norm_num)
    simp [String.length_append, h4, hm2, hd2]
  · intro hA hB
    simp [convert_japanese_date, hA, hB]

/-- C1 witness: the amended theorem applied to the concrete Era-A string
`令和8年2月20日` (year 8, month 2, day 20) yields `20260220`, of length 8. -/
theorem C1_era_date_converter_witness :
    convert_japanese_date ("令和8年2月20日") = some ("20260220") ∧
    (pyFormat 4 (8 + 2018) ++ pyFormat 2 2 ++ pyFormat 2 20).length = 8 := by
  have h := (C1_era_date_converter ("令和8年2月20日")).1 8 2 20 (by decide)
  exact ⟨h.1.trans (by decide), h.2 (by decide) (by decide) (by decide)⟩

/-- C1 counterexample: the claim as stated is false on the code.  The
Era-A string `令和8年123月20日` (month written with three digits matches
the pattern `令和(\d+|元)年(\d+)月(\d+)日`) is converted to the
9-character string `202612320`, not an 8-character string; and the string
`令和8年2月20日平成31年4月30日` matches the Era-B pattern yet is not
converted with offset +1988, because the Era-A match takes precedence. -/
theorem C1_counterexample :
    (convert_japanese_date ("令和8年123月20日") = some ("202612320") ∧
      ("202612320" : String).length ≠ 8) ∧
    (searchEra '平' '成' (String.data ("令和8年2月20日平成31年4月30日")) = some (31, 4, 30) ∧
      convert_japanese_date ("令和8年2月20日平成31年4月30日") = some ("20260220") ∧
      ("20260220" : String) ≠ pyFormat 4 (31 + 1988) ++ pyFormat 2 4 ++ pyFormat 2 30) := by
  exact ⟨⟨by decide, by decide⟩, by decide, by decide, by decide⟩

/-! ## Claim C2 -/

/-- C2 (amended): in the modern client (full-snapshot and differential
pipelines alike), the downloaded archive is deleted exactly once before
the call returns or propagates, on every exit path except a transport
failure that interrupts the download stream after the temporary file was
created; the extracted data file is deleted exactly once on every exit
path on which the extraction stream itself did not fail.  The legacy
loader deletes neither temporary file on any path. -/
theorem C2_temp_cleanup :
    (∀ (env : ClientEnv) (pref fmt : String) (odir : Option String)
        (pcols : Option (List String)),
      (env.download ≠ DownloadOutcome.failMidStream →
        cleaned (download_and_process env pref fmt odir pcols emptyFS).2.zips) ∧
      (env.writer.extractOk = true →
        cleaned (download_and_process env pref fmt odir pcols emptyFS).2.csv)) ∧
    (∀ (env : DiffEnv) (date : Option String) (fmt : String) (odir : Option String)
        (pcols : Option (List String)),
      (env.download ≠ DownloadOutcome.failMidStream →
        cleaned (download_diff env date fmt odir pcols emptyFS).2.zips) ∧
      (env.writer.extractOk = true →
        cleaned (download_diff env date fmt odir pcols emptyFS).2.csv)) ∧
    (∀ (env : LegacyEnv) (pref : String),
      (legacy_to_df env pref emptyFS).2.zips.removals = 0 ∧
      (legacy_to_df env pref emptyFS).2.csv.removals = 0) := by
  refine ⟨?_, ?_, ?_⟩
  · rintro ⟨fetch, dl, zn, eok, pok⟩ pref fmt odir pcols
    cases fetch with
    | transportFail => simp [download_and_process, get_page_and_token, cleaned, emptyFS]
    | page tok content =>
      cases tok with
      | none => simp [download_and_process, get_page_and_token, cleaned, emptyFS]
      | some t =>
        cases hl : content.lookup (pyCapitalize pref) with
        | none =>
          simp [download_and_process, get_page_and_token, hl, cleaned, emptyFS]
        | some fid =>
          cases dl with
          | failBeforeWrite =>
            simp [download_and_process, get_page_and_token, hl, download_zip, cleaned, emptyFS]
          | failMidStream =>
            refine ⟨fun h => absurd rfl h, fun he => ?_⟩
            simp [download_and_process, get_page_and_token, hl, download_zip, cleaned,
              emptyFS, TempFile.make]
          | ok =>
            cases zn with
            | none =>
              simp [download_and_process, get_page_and_token, hl, download_zip,
                uncompress_and_parse, cleaned, emptyFS, TempFile.make, TempFile.removeIfExists]
            | some names =>
              cases hs : select_csv_member names with
              | error e =>
                simp [download_and_process, get_page_and_token, hl, download_zip,
                  uncompress_and_parse, hs, cleaned, emptyFS, TempFile.make,
                  TempFile.removeIfExists]
              | ok m =>
                cases eok with
                | false =>
                  refine ⟨fun _ => ?_, fun he => by simp at he⟩
                  simp [download_and_process, get_page_and_token, hl, download_zip,
                    uncompress_and_parse, hs, cleaned, emptyFS, TempFile.make,
                    TempFile.removeIfExists]
                | true =>
                  constructor <;> intro h <;>
                    simp [download_and_process, get_page_and_token, hl, download_zip,
                      uncompress_and_parse, hs, cleaned, emptyFS, TempFile.make,
                      TempFile.removeIfExists]
  · rintro ⟨fetch, dl, zn, eok, pok⟩ date fmt odir pcols
    cases fetch with
    | transportFail => simp [download_diff, get_page_and_token, cleaned, emptyFS]
    | page tok rows =>
      cases tok with
      | none => simp [download_diff, get_page_and_token, cleaned, emptyFS]
      | some t =>
        cases hf : fetch_sabun_file_id rows date with
        | error e =>
          simp [download_diff, get_page_and_token, hf, cleaned, emptyFS]
        | ok fid =>
          cases dl with
          | failBeforeWrite =>
            simp [download_diff, get_page_and_token, hf, download_zip, cleaned, emptyFS]
          | failMidStream =>
            refine ⟨fun h => absurd rfl h, fun he => ?_⟩
            simp [download_diff, get_page_and_token, hf, download_zip, cleaned,
              emptyFS, TempFile.make]
          | ok =>
            cases zn with
            | none =>
              simp [download_diff, get_page_and_token, hf, download_zip,
                uncompress_and_parse, cleaned, emptyFS, TempFile.make, TempFile.removeIfExists]
            | some names =>
              cases hs : select_csv_member names with
              | error e =>
                simp [download_diff, get_page_and_token, hf, download_zip,
                  uncompress_and_parse, hs, cleaned, emptyFS, TempFile.make,
                  TempFile.removeIfExists]
              | ok m =>
                cases eok with
                | false =>
                  refine ⟨fun _ => ?_, fun he => by simp at he⟩
                  simp [download_diff, get_page_and_token, hf, download_zip,
                    uncompress_and_parse, hs, cleaned, emptyFS, TempFile.make,
                    TempFile.removeIfExists]
                | true =>
                  constructor <;> intro h <;>
                    simp [download_diff, get_page_and_token, hf, download_zip,
                      uncompress_and_parse, hs, cleaned, emptyFS, TempFile.make,
                      TempFile.removeIfExists]
  · rintro ⟨plist, dl, zn, eok, pok⟩ pref
    cases hl : plist.lookup (pyCapitalize pref) with
    | none => simp [legacy_to_df, legacy_zip_load, hl, emptyFS]
    | some fid =>
      cases dl with
      | failBeforeWrite =>
        simp [legacy_to_df, legacy_zip_load, hl, download_zip, emptyFS]
      | failMidStream =>
        simp [legacy_to_df, legacy_zip_load, hl, download_zip, emptyFS, TempFile.make]
      | ok =>
        cases zn with
        | none =>
          simp [legacy_to_df, legacy_zip_load, hl, download_zip, legacy_uncompress_file,
            emptyFS, TempFile.make]
        | some names =>
          cases hs : select_csv_member names with
          | error e =>
            simp [legacy_to_df, legacy_zip_load, hl, download_zip, legacy_uncompress_file,
              hs, emptyFS, TempFile.make]
          | ok m =>
            cases eok <;>
              simp [legacy_to_df, legacy_zip_load, hl, download_zip, legacy_uncompress_file,
                hs, emptyFS, TempFile.make]

/-- C2 witness: the amended theorem applied to a concrete fully
successful modern full-snapshot invocation — both temporary files end up
cleaned. -/
theorem C2_temp_cleanup_witness :
    cleaned (download_and_process
      { fetch := .page (some ("tok")) [("All", "12345")], download := .ok,
        writer := { zipNames := some ["data.csv"], extractOk := true, parseOk := true } }
      ("All") ("df") none none emptyFS).2.zips ∧
    cleaned (download_and_process
      { fetch := .page (some ("tok")) [("All", "12345")], download := .ok,
        writer := { zipNames := some ["data.csv"], extractOk := true, parseOk := true } }
      ("All") ("df") none none emptyFS).2.csv := by
  have h := C2_temp_cleanup.1
    { fetch := .page (some ("tok")) [("All", "12345")], download := .ok,
      writer := { zipNames := some ["data.csv"], extractOk := true, parseOk := true } }
    ("All") ("df") none none
  exact ⟨h.1 (by decide), h.2 (by decide)⟩

/-- C2 counterexample: a fully successful legacy-loader invocation
(`ZipLoader.to_df` with a known region, a valid archive, and clean I-O)
returns with the downloaded archive still on disk, never removed, and the
extracted data file still on disk, never removed — so the claim that every
invocation in either client deletes each temporary file exactly once
before returning is false on the code. -/
theorem C2_counterexample :
    (legacy_to_df { prefList := [("All", "12345")], download := .ok,
                    zipNames := some ["data.csv"], extractOk := true, parseOk := true }
      ("All") emptyFS).1 = .ok () ∧
    (legacy_to_df { prefList := [("All", "12345")], download := .ok,
                    zipNames := some ["data.csv"], extractOk := true, parseOk := true }
      ("All") emptyFS).2.zips.created = true ∧
    (legacy_to_df { prefList := [("All", "12345")], download := .ok,
                    zipNames := some ["data.csv"], extractOk := true, parseOk := true }
      ("All") emptyFS).2.zips.onDisk = true ∧
    (legacy_to_df { prefList := [("All", "12345")], download := .ok,
                    zipNames := some ["data.csv"], extractOk := true, parseOk := true }
      ("All") emptyFS).2.zips.removals = 0 ∧
    (legacy_to_df { prefList := [("All", "12345")], download := .ok,
                    zipNames := some ["data.csv"], extractOk := true, parseOk := true }
      ("All") emptyFS).2.csv.onDisk = true ∧
    (legacy_to_df { prefList := [("All", "12345")], download := .ok,
                    zipNames := some ["data.csv"], extractOk := true, parseOk := true }
      ("All") emptyFS).2.csv.removals = 0 := by
  exact ⟨by decide, by decide, by decide, by decide, by decide, by decide⟩

/-! ## Claim C3 -/

/-- The pinned schema has exactly the configured header names, in order,
and every field is text-typed. -/
theorem pa_schema_spec (headers : List String) :
    (pa_schema headers).map Prod.fst = headers ∧
    ∀ f ∈ pa_schema headers, f.2 = ColType.text := by
  constructor
  · simp only [pa_schema, List.map_map]
    exact List.map_id headers
  · intro f hf
    simp [pa_schema] at hf
    obtain ⟨a, _, rfl⟩ := hf
    rfl

/-- C3 (confirmed): for every accepted data file, under either writer
materialization entry point (in-memory table or on-disk dataset, the
latter for every possible chunking) and under the legacy reader, every
output column is text-typed and the output column list equals the
configured header list exactly, in count and order. -/
theorem C3_schema_enforcement (headers : List String) (file : List (List String))
    (chunks : List (List (List String))) (t : ATable) :
    (parse_to_df headers file = .ok t →
      t.fields.map Prod.fst = headers ∧ ∀ f ∈ t.fields, f.2 = ColType.text) ∧
    (parse_to_parquet_dataset headers chunks = .ok t →
      t.fields.map Prod.fst = headers ∧ ∀ f ∈ t.fields, f.2 = ColType.text) ∧
    (read_csv headers file = .ok t →
      t.fields.map Prod.fst = headers ∧ ∀ f ∈ t.fields, f.2 = ColType.text) := by
  refine ⟨?_, ?_, ?_⟩ <;> intro h
  · unfold parse_to_df at h
    split at h
    · simp only [Except.ok.injEq] at h
      subst h
      exact pa_schema_spec headers
    · simp at h
  · unfold parse_to_parquet_dataset at h
    split at h
    · simp only [Except.ok.injEq] at h
      subst h
      exact pa_schema_spec headers
    · simp at h
  · unfold read_csv at h
    split at h
    · simp only [Except.ok.injEq] at h
      subst h
      exact pa_schema_spec headers
    · simp at h

/-- C3 witness: the theorem applied to a concrete two-column header and a
concrete one-record file. -/
theorem C3_schema_enforcement_witness :
    ({ fields := [("corporate_number", ColType.text), ("name", ColType.text)],
       rows := [["1234567890123", "x"]] } : ATable).fields.map Prod.fst =
      ["corporate_number", "name"] ∧
    ("name", ColType.text).2 = ColType.text := by
  have h := (C3_schema_enforcement ["corporate_number", "name"] [["1234567890123", "x"]]
      [[["1234567890123", "x"]]]
      { fields := [("corporate_number", ColType.text), ("name", ColType.text)],
        rows := [["1234567890123", "x"]] }).1 (by decide)
  exact ⟨h.1, h.2 ("name", ColType.text) (by decide)⟩

/-! ## Claim C7 -/

/-- C7 (confirmed): for the same extracted data file and the same
configured header list, the number of rows written by the dataset
(parquet) materialization — whatever chunk boundaries the streaming reader
produced — equals the number of rows of the in-memory table. -/
theorem C7_rowcount_equal (headers : List String) (file : List (List String))
    (chunks : List (List (List String))) (t d : ATable)
    (hchunks : chunks.flatten = file)
    (hdf : parse_to_df headers file = .ok t)
    (hds : parse_to_parquet_dataset headers chunks = .ok d) :
    d.rows.length = t.rows.length := by
  unfold parse_to_df at hdf
  unfold parse_to_parquet_dataset at hds
  split at hdf
  · simp only [Except.ok.injEq] at hdf
    subst hdf
    split at hds
    · simp only [Except.ok.injEq] at hds
      subst hds
      simp [hchunks]
    · simp at hds
  · simp at hdf

/-- C7 witness: the theorem applied to a concrete two-record file split
into two one-record chunks. -/
theorem C7_rowcount_equal_witness :
    ({ fields := [("corporate_number", ColType.text)],
       rows := [["1"], ["2"]] } : ATable).rows.length =
    ({ fields := [("corporate_number", ColType.text)],
       rows := [["1"], ["2"]] } : ATable).rows.length := by
  exact C7_rowcount_equal ["corporate_number"] [["1"], ["2"]] [[["1"]], [["2"]]]
    { fields := [("corporate_number", ColType.text)], rows := [["1"], ["2"]] }
    { fields := [("corporate_number", ColType.text)], rows := [["1"], ["2"]] }
    (by decide) (by decide) (by decide)

/-! ## Claim C9 -/

/-- C9 (confirmed): for every environment and every combination of format,
output directory and partition-column arguments, `download_all` returns
exactly the same result (value and file-system effect) as
`download_prefecture` invoked with region `All` — both delegate to the
same internal pipeline with prefecture `All`. -/
theorem C9_download_all_delegates (env : ClientEnv) (format_type : String)
    (output_dir : Option String) (partition_cols : Option (List String)) (fs : FS) :
    download_all env format_type output_dir partition_cols fs =
    download_prefecture env ("All") format_type output_dir partition_cols fs := rfl

/-! ## Claim C4 -/

/-- C4 (amended): for every requested region string, both clients
capitalization-normalize the lookup key before the catalog lookup; when
the normalized key is absent, the modern client raises a recoverable
`ValueError` with a message naming the region, while the legacy loader
instead converts the `KeyError` into a fatal `SystemExit`. -/
theorem C4_region_lookup (pref fmt : String) (odir : Option String)
    (pcols : Option (List String)) (fs : FS) (tok : String)
    (prefList : List (String × String)) (dl : DownloadOutcome) (w : WriterEnv)
    (lenv : LegacyEnv)
    (hmodern : prefList.lookup (pyCapitalize pref) = none)
    (hlegacy : lenv.prefList.lookup (pyCapitalize pref) = none) :
    download_and_process { fetch := .page (some tok) prefList, download := dl, writer := w }
      pref fmt odir pcols fs =
      (.error (.valueError ("Unexpected Prefecture or Region: " ++ pref)), fs) ∧
    (PyExc.valueError ("Unexpected Prefecture or Region: " ++ pref)).isFatal = false ∧
    legacy_zip_load lenv pref fs =
      (.error (.systemExit ("Unexpected Key Value: " ++ pref)), fs) ∧
    (PyExc.systemExit ("Unexpected Key Value: " ++ pref)).isFatal = true := by
  refine ⟨?_, rfl, ?_, rfl⟩
  · simp [download_and_process, get_page_and_token, hmodern]
  · simp [legacy_zip_load, hlegacy]

/-- C4 witness: the theorem applied to the unknown region `Atlantis`
against a concrete one-entry catalog, in both clients. -/
theorem C4_region_lookup_witness :
    download_and_process
      { fetch := .page (some ("tok")) [("All", "12345")], download := .ok,
        writer := { zipNames := some ["data.csv"], extractOk := true, parseOk := true } }
      ("Atlantis") ("df") none none emptyFS =
      (.error (.valueError ("Unexpected Prefecture or Region: Atlantis")), emptyFS) ∧
    legacy_zip_load
      { prefList := [("All", "12345")], download := .ok,
        zipNames := some ["data.csv"], extractOk := true, parseOk := true }
      ("Atlantis") emptyFS =
      (.error (.systemExit ("Unexpected Key Value: Atlantis")), emptyFS) := by
  have h := C4_region_lookup ("Atlantis") ("df") none none emptyFS ("tok") [("All", "12345")]
    .ok { zipNames := some ["data.csv"], extractOk := true, parseOk := true }
    { prefList := [("All", "12345")], download := .ok, zipNames := some ["data.csv"],
      extractOk := true, parseOk := true } (by decide) (by decide)
  exact ⟨h.1.trans (by decide), h.2.2.1.trans (by decide)⟩

/-- C4 counterexample: in the legacy loader an unknown region raises the
fatal `SystemExit`, not a recoverable user error, so the claim that the
operation raises a recoverable error and does not abort the process is
false for the load.py path it cites. -/
theorem C4_counterexample :
    (legacy_zip_load
      { prefList := [("All", "12345")], download := .ok,
        zipNames := some ["data.csv"], extractOk := true, parseOk := true }
      ("Atlantis") emptyFS).1 = .error (.systemExit ("Unexpected Key Value: Atlantis")) ∧
    (PyExc.systemExit ("Unexpected Key Value: Atlantis")).isFatal = true := by
  exact ⟨by decide, rfl⟩

/-! ## Claim C8 -/

/-- C8 (amended): a fetched catalog page lacking the hidden token form
field makes the modern client raise a recoverable `ValueError` — a
different, non-fatal exception from the `SystemExit` raised on a
transport failure — and makes the legacy loader raise a `TypeError`;
a missing token is therefore not treated like a transport failure. -/
theorem C8_missing_token {α : Type} (url : String) (c : α) :
    get_page_and_token url (.page none c) =
      .error (.valueError ("Security token " ++ tokenKey ++ " not found on " ++ url)) ∧
    (PyExc.valueError ("Security token " ++ tokenKey ++ " not found on " ++ url)).isFatal
      = false ∧
    get_page_and_token url (.transportFail : FetchResult α) =
      .error (.systemExit ("Request to " ++ url ++ " failed")) ∧
    (PyExc.systemExit ("Request to " ++ url ++ " failed")).isFatal = true ∧
    load_token none = .error (.typeError ("NoneType object is not subscriptable")) ∧
    (PyExc.typeError ("NoneType object is not subscriptable")).isFatal = false :=
  ⟨rfl, rfl, rfl, rfl, rfl, rfl⟩

/-- C8 counterexample: on the full-snapshot endpoint, a page without the
hidden token field produces a non-fatal `ValueError`, which differs from
the fatal `SystemExit` a transport failure produces — the claim that both
fail in the same process-aborting way is false on the code. -/
theorem C8_counterexample :
    get_page_and_token zenkenUrl (.page none ([] : List (String × String))) =
      .error (.valueError ("Security token " ++ tokenKey ++ " not found on " ++ zenkenUrl)) ∧
    (PyExc.valueError ("Security token " ++ tokenKey ++ " not found on " ++ zenkenUrl)).isFatal
      = false ∧
    (PyExc.systemExit ("Request to " ++ zenkenUrl ++ " failed")).isFatal = true ∧
    get_page_and_token zenkenUrl (.page none ([] : List (String × String))) ≠
      get_page_and_token zenkenUrl (.transportFail : FetchResult (List (String × String))) := by
  refine ⟨rfl, rfl, rfl, by decide⟩

/-! ## Supporting lemmas on the catalog loop -/

/-- When a date is requested and some row matches it, the loop returns the
identifier of the first matching row (rows before it, matching or not
extractable or with a different date, are passed over). -/
theorem sabunLoop_find (d : String) (rows : List SabunRow) :
    ∀ r pd fid, rows.find? (rowMatches d) = some r → rowExtract r = some (pd, fid) →
      sabunLoop (some d) rows = some fid := by
  induction rows with
  | nil => intro r pd fid h _; simp at h
  | cons r0 rest ih =>
    intro r pd fid hfind hext
    cases hm : rowMatches d r0 with
    | true =>
      rw [List.find?_cons_of_pos _ hm] at hfind
      injection hfind with hr
      subst hr
      unfold rowMatches at hm
      rw [hext] at hm
      cases pd with
      | none => simp at hm
      | some pdv =>
        simp only [beq_iff_eq] at hm
        simp [sabunLoop, hext, hm]
    | false =>
      rw [List.find?_cons_of_neg _ (by simp [hm])] at hfind
      cases he : rowExtract r0 with
      | none =>
        simpa [sabunLoop, he] using ih r pd fid hfind hext
      | some e =>
        obtain ⟨pd0, fid0⟩ := e
        have hcond : (pd0 == some d) = false := by
          unfold rowMatches at hm
          rw [he] at hm
          cases pd0 with
          | none => rfl
          | some v => simpa using hm
        simpa [sabunLoop, he, hcond] using ih r pd fid hfind hext

/-- When a date is requested and no row matches it, the loop selects
nothing. -/
theorem sabunLoop_nomatch (d : String) (rows : List SabunRow)
    (h : ∀ r ∈ rows, rowMatches d r = false) : sabunLoop (some d) rows = none := by
  induction rows with
  | nil => rfl
  | cons r0 rest ih =>
    have hm := h r0 (by simp)
    have hrest : ∀ r ∈ rest, rowMatches d r = false := fun r hr => h r (by simp [hr])
    cases he : rowExtract r0 with
    | none => simpa [sabunLoop, he] using ih hrest
    | some e =>
      obtain ⟨pd0, fid0⟩ := e
      have hcond : (pd0 == some d) = false := by
        unfold rowMatches at hm
        rw [he] at hm
        cases pd0 with
        | none => rfl
        | some v => simpa using hm
      simpa [sabunLoop, he, hcond] using ih hrest

/-- With no date requested, the loop returns the identifier of the first
row with an extractable identifier. -/
theorem sabunLoop_latest (rows : List SabunRow) :
    ∀ pd fid tail, rows.filterMap rowExtract = (pd, fid) :: tail →
      sabunLoop none rows = some fid := by
  induction rows with
  | nil => intro pd fid tail h; simp at h
  | cons r0 rest ih =>
    intro pd fid tail h
    cases he : rowExtract r0 with
    | none =>
      rw [List.filterMap_cons_none he] at h
      simpa [sabunLoop, he] using ih pd fid tail h
    | some e =>
      rw [List.filterMap_cons_some he] at h
      injection h with h1 _
      subst h1
      simp [sabunLoop, he]

/-- Every identifier the loop selects comes from a member row whose
extraction succeeded. -/
theorem sabunLoop_mem (target : Option String) (rows : List SabunRow) :
    ∀ fid, sabunLoop target rows = some fid →
      ∃ r, r ∈ rows ∧ ∃ pd, rowExtract r = some (pd, fid) := by
  induction rows with
  | nil => intro fid h; simp [sabunLoop] at h
  | cons r0 rest ih =>
    intro fid h
    cases he : rowExtract r0 with
    | none =>
      simp only [sabunLoop, he] at h
      obtain ⟨r, hr, pd, hext⟩ := ih fid h
      exact ⟨r, List.mem_cons_of_mem _ hr, pd, hext⟩
    | some e =>
      obtain ⟨pd0, fid0⟩ := e
      by_cases hc : (target.isNone || pd0 == target) = true
      · simp only [sabunLoop, he, hc, if_true] at h
        injection h with h1
        exact ⟨r0, List.mem_cons_self _ _, pd0, by rw [he, h1]⟩
      · simp only [sabunLoop, he, if_neg hc] at h
        obtain ⟨r, hr, pd, hext⟩ := ih fid h
        exact ⟨r, List.mem_cons_of_mem _ hr, pd, hext⟩

/-- A page none of whose rows is extractable selects nothing, whatever
date is requested. -/
theorem sabunLoop_allNone (target : Option String) (rows : List SabunRow)
    (h : ∀ r ∈ rows, rowExtract r = none) : sabunLoop target rows = none := by
  induction rows with
  | nil => rfl
  | cons r0 rest ih =>
    have he := h r0 (by simp)
    have hrest : ∀ r ∈ rest, rowExtract r = none := fun r hr => h r (by simp [hr])
    simpa [sabunLoop, he] using ih hrest

/-- The head of a filtered list is the first element satisfying the
predicate. -/
theorem find_eq_head_of_filter {α : Type} (p : α → Bool) (l : List α) :
    ∀ m rest, l.filter p = m :: rest → l.find? p = some m := by
  induction l with
  | nil => intro m rest h; simp at h
  | cons a t ih =>
    intro m rest h
    cases ha : p a with
    | true =>
      rw [List.filter_cons_of_pos ha] at h
      injection h with h1 _
      subst h1
      exact List.find?_cons_of_pos _ ha
    | false =>
      rw [List.filter_cons_of_neg (by simp [ha])] at h
      rw [List.find?_cons_of_neg _ (by simp [ha])]
      exact ih m rest h

/-! ## Claim C5 -/

/-- C5 (confirmed): date-catalog resolution processes rows in document
order — with no requested date it returns the identifier of the first
(latest) catalog row; with a requested date it returns the identifier of
the first row whose converted date equals that date; a requested date
matching no row raises the `ValueError` whose message reads `No sabun
data found for the date: ...` (the spec's "no data for that date"), and
no requested date with an empty catalog raises the `ValueError` whose
message reads `Failed to retrieve the latest sabun file ID.` (the spec's
"no latest entry available"). -/
theorem C5_date_catalog_resolution (rows : List SabunRow) :
    (∀ r rest pd fid, rows = r :: rest → rowExtract r = some (pd, fid) →
      fetch_sabun_file_id (some rows) none = .ok fid) ∧
    (∀ d r pd fid, rows.find? (rowMatches d) = some r → rowExtract r = some (pd, fid) →
      fetch_sabun_file_id (some rows) (some d) = .ok fid) ∧
    (∀ d, rows.find? (rowMatches d) = none →
      fetch_sabun_file_id (some rows) (some d) =
        .error (.valueError ("No sabun data found for the date: " ++ d))) ∧
    (rows = [] →
      fetch_sabun_file_id (some rows) none =
        .error (.valueError ("Failed to retrieve the latest sabun file ID."))) := by
  refine ⟨?_, ?_, ?_, ?_⟩
  · rintro r rest pd fid rfl hext
    simp [fetch_sabun_file_id, sabunLoop, hext]
  · intro d r pd fid hfind hext
    have hl := sabunLoop_find d rows r pd fid hfind hext
    simp [fetch_sabun_file_id, hl]
  · intro d hfind
    have hall : ∀ r ∈ rows, rowMatches d r = false := by
      intro r hr
      have hnp := List.find?_eq_none.mp hfind r hr
      simpa using hnp
    have hl := sabunLoop_nomatch d rows hall
    simp [fetch_sabun_file_id, hl, sabunFail]
  · rintro rfl
    rfl

/-- C5 witness: the theorem applied to a concrete two-row catalog — with
no date requested the first row's identifier is returned; requesting the
second row's date returns the second identifier; requesting an absent
date raises the no-data `ValueError`. -/
theorem C5_date_catalog_resolution_witness :
    fetch_sabun_file_id
      (some [{ th := some ("令和8年2月20日"), td := .anchorOnclick ("dl(12345)") },
             { th := some ("令和8年2月13日"), td := .anchorOnclick ("dl(11111)") }]) none =
      .ok ("12345") ∧
    fetch_sabun_file_id
      (some [{ th := some ("令和8年2月20日"), td := .anchorOnclick ("dl(12345)") },
             { th := some ("令和8年2月13日"), td := .anchorOnclick ("dl(11111)") }])
      (some ("20260213")) = .ok ("11111") ∧
    fetch_sabun_file_id
      (some [{ th := some ("令和8年2月20日"), td := .anchorOnclick ("dl(12345)") },
             { th := some ("令和8年2月13日"), td := .anchorOnclick ("dl(11111)") }])
      (some ("20270101")) =
      .error (.valueError ("No sabun data found for the date: 20270101")) := by
  have h := C5_date_catalog_resolution
    [{ th := some ("令和8年2月20日"), td := .anchorOnclick ("dl(12345)") },
     { th := some ("令和8年2月13日"), td := .anchorOnclick ("dl(11111)") }]
  refine ⟨?_, ?_, ?_⟩
  · exact h.1 { th := some ("令和8年2月20日"), td := .anchorOnclick ("dl(12345)") }
      [{ th := some ("令和8年2月13日"), td := .anchorOnclick ("dl(11111)") }]
      (some ("20260220")) ("12345") rfl (by decide)
  · exact h.2.1 ("20260213") { th := some ("令和8年2月13日"), td := .anchorOnclick ("dl(11111)") }
      (some ("20260213")) ("11111") (by decide) (by decide)
  · exact h.2.2.1 ("20270101") (by decide)

/-! ## Claim C10 -/

/-- C10 (confirmed): during date-catalog resolution any row lacking a
header cell, a data cell, an anchor, an `onclick` attribute or a 5-digit
identifier match is skipped and can never be selected — every selected
identifier comes from a row whose extraction succeeded; a page all of
whose rows are unextractable yields the same "no data for that date"
`ValueError` (not a distinct error) even when a row's date matches; and
the "latest" entry is the first row with an extractable identifier, not
necessarily the first row of the table. -/
theorem C10_malformed_rows_skipped (rows : List SabunRow) :
    (∀ target fid, fetch_sabun_file_id (some rows) target = .ok fid →
      ∃ r, r ∈ rows ∧ ∃ pd, rowExtract r = some (pd, fid)) ∧
    (∀ d, (∀ r ∈ rows, rowExtract r = none) →
      fetch_sabun_file_id (some rows) (some d) =
        .error (.valueError ("No sabun data found for the date: " ++ d))) ∧
    (∀ pd fid tail, rows.filterMap rowExtract = (pd, fid) :: tail →
      fetch_sabun_file_id (some rows) none = .ok fid) := by
  refine ⟨?_, ?_, ?_⟩
  · intro target fid h
    cases hl : sabunLoop target rows with
    | none => simp [fetch_sabun_file_id, hl] at h
    | some fid0 =>
      simp [fetch_sabun_file_id, hl] at h
      subst h
      exact sabunLoop_mem target rows fid0 hl
  · intro d hall
    have hl := sabunLoop_allNone (some d) rows hall
    simp [fetch_sabun_file_id, hl, sabunFail]
  · intro pd fid tail h
    have hl := sabunLoop_latest rows pd fid tail h
    simp [fetch_sabun_file_id, hl]

/-- C10 witness: the theorem applied to a concrete catalog whose first
row has a matching date but no data cell — the request for that date
yields the no-data `ValueError`, and the latest entry is the second
row, the first one with an extractable identifier. -/
theorem C10_malformed_rows_skipped_witness :
    fetch_sabun_file_id
      (some [{ th := some ("令和8年2月20日"), td := .noTd }]) (some ("20260220")) =
      .error (.valueError ("No sabun data found for the date: 20260220")) ∧
    fetch_sabun_file_id
      (some [{ th := some ("令和8年2月20日"), td := .noTd },
             { th := some ("令和8年2月13日"), td := .anchorOnclick ("dl(11111)") }]) none =
      .ok ("11111") := by
  constructor
  · exact (C10_malformed_rows_skipped
      [{ th := some ("令和8年2月20日"), td := .noTd }]).2.1 ("20260220") (by decide)
  · exact (C10_malformed_rows_skipped
      [{ th := some ("令和8年2月20日"), td := .noTd },
       { th := some ("令和8年2月13日"), td := .anchorOnclick ("dl(11111)") }]).2.2
      (some ("20260213")) ("11111") [] (by decide)

/-! ## Claim C6 -/

/-- C6 (confirmed): archive extraction filters the member names by a
case-insensitive `.csv` suffix match; when no member matches, both the
writer and the legacy extractor fail with the recoverable `BadZipFile`
whose message reads `No CSV found in ZIP.` (the spec's "no data file in
archive"); when one or more members match, the first match in archive
listing order is selected silently, without error. -/
theorem C6_archive_member_selection (names : List String) :
    (names.filter csvMember = [] →
      select_csv_member names = .error (.badZipFile ("No CSV found in ZIP."))) ∧
    (∀ m rest, names.filter csvMember = m :: rest →
      select_csv_member names = .ok m ∧ names.find? csvMember = some m) ∧
    (∀ (w : WriterEnv) fmt odir pcols fs, w.zipNames = some names →
      names.filter csvMember = [] →
      (uncompress_and_parse w fmt odir pcols fs).1 =
        .error (.badZipFile ("No CSV found in ZIP."))) ∧
    (∀ (lenv : LegacyEnv) fs, lenv.zipNames = some names →
      names.filter csvMember = [] →
      (legacy_uncompress_file lenv fs).1 = .error (.badZipFile ("No CSV found in ZIP."))) := by
  have hsel : names.filter csvMember = [] →
      select_csv_member names = .error (.badZipFile ("No CSV found in ZIP.")) := by
    intro h
    unfold select_csv_member
    rw [h]
  refine ⟨hsel, ?_, ?_, ?_⟩
  · intro m rest h
    refine ⟨?_, find_eq_head_of_filter csvMember names m rest h⟩
    unfold select_csv_member
    rw [h]
  · intro w fmt odir pcols fs hzn h
    simp [uncompress_and_parse, hzn, hsel h]
  · intro lenv fs hzn h
    simp [legacy_uncompress_file, hzn, hsel h]

/-- C6 witness: the theorem applied to a concrete listing with two
case-insensitive matches — the first in listing order is selected with no
error — and to a listing with none, which fails with the `BadZipFile`
user error. -/
theorem C6_archive_member_selection_witness :
    select_csv_member ["readme.txt", "Data.CSV", "second.csv"] = .ok ("Data.CSV") ∧
    ["readme.txt", "Data.CSV", "second.csv"].find? csvMember = some ("Data.CSV") ∧
    select_csv_member ["readme.txt"] = .error (.badZipFile ("No CSV found in ZIP.")) := by
  have h := (C6_archive_member_selection ["readme.txt", "Data.CSV", "second.csv"]).2.1
    ("Data.CSV") ["second.csv"] (by decide)
  exact ⟨h.1, h.2, (C6_archive_member_selection ["readme.txt"]).1 (by decide)⟩
